import Mathlib

/-!
emarah-calendar: database connection liveness and graceful shutdown.

A shallow embedding of `backend/internal/database/database.go`:
`ConnectDatabase`, `DBMiddleware`, `GracefulShutdown` and `main`.

The Go program talks to three libraries (gorm, database/sql, fiber) and to the
process environment.  Their answers are not computed by the program, so they
are a parameter of the model: a `Driver W` over a world state `W`.  Everything
the program itself does (the order of calls, the assignment to the
package-level `db`, the branches, the log lines, the HTTP response) is
translated statement by statement.
-/

namespace Calendar

/-! ## Data model -/

/-- Identity of a `*gorm.DB` value. -/
abbrev Handle := Nat

/-- Identity of a `*sql.DB` value, the pingable session under a handle. -/
abbrev Session := Nat

/-- What `gorm.Open` hands back: `(db, nil)` with a usable `db`, or `(db, err)`
with a non-nil `err`, where `db` may be nil or a handle that was not fully
initialised. -/
inductive OpenResult where
  | ok (h : Handle)
  | fail (db : Option Handle) (err : String)
  deriving DecidableEq, Repr

/-- A Go call either returns or panics. -/
inductive Outcome (α : Type) where
  | ret (a : α)
  | panic (msg : String)
  deriving DecidableEq, Repr

/-- Observable effects, in the order the program performs them.
`enterConnectDatabase` marks the entry of a `ConnectDatabase` call. -/
inductive Event where
  | enterConnectDatabase
  | gormOpen (target : String)
  | dbDB (h : Handle)
  | ping (s : Session)
  | close (s : Session)
  | log (line : String)
  | next
  | listen (addr : String)
  | appShutdown
  | exit (code : Nat)
  deriving DecidableEq, Repr

/-- The libraries and the environment, as seen by the program.
* `getenv`   : `os.Getenv`
* `gormOpen` : `gorm.Open(mysql.Open(dsn), &gorm.Config{})`
* `getDB`    : `(*gorm.DB).DB()` on a non-nil receiver
* `ping`     : `(*sql.DB).Ping()`, `none` is a nil error
* `close`    : `(*sql.DB).Close()`, `none` is a nil error -/
structure Driver (W : Type) where
  getenv : W → String → String
  gormOpen : W → String → OpenResult × W
  getDB : W → Handle → Except String Session
  ping : W → Session → Option String × W
  close : W → Session → Option String × W

/-- Program state: the world, the package-level variable `db` (`none` is the
nil pointer), the trace of effects, and a ghost list `live` of the handles
that `gorm.Open` returned without error and whose session was not closed
since. -/
structure State (W : Type) where
  world : W
  db : Option Handle
  live : List Handle
  trace : List Event

variable {W : Type}

/-- Append one effect to the trace. -/
def State.emit (st : State W) (e : Event) : State W :=
  { st with trace := st.trace ++ [e] }

/-- Models `log.Println` / `log.Printf`: one line to the logging sink. -/
def State.log (st : State W) (line : String) : State W :=
  st.emit (.log line)

/-- The message of the run-time panic raised by a nil pointer dereference. -/
def nilDeref : String :=
  "runtime error: invalid memory address or nil pointer dereference"

/-! ## fmt.Sprintf, restricted to the `%s` verb -/

/-- Expands a format over its arguments, character by character. Only the
`%s` verb is interpreted; a `%s` without argument prints Go's missing-operand
marker. -/
def sprintfAux : List Char → List String → List Char
  | '%' :: 's' :: rest, a :: args => a.data ++ sprintfAux rest args
  | '%' :: 's' :: rest, [] => "%!s(MISSING)".data ++ sprintfAux rest []
  | c :: rest, args => c :: sprintfAux rest args
  | [], _ => []

/-- Models `fmt.Sprintf(format, args...)` for string operands. -/
def Sprintf (format : String) (args : List String) : String :=
  ⟨sprintfAux format.data args⟩

/-- The connection target string built at lines 21-26. -/
def dsn (getenv : String → String) : String :=
  Sprintf "%s:%s@tcp(%s)/%s?charset=utf8mb4&parseTime=True&loc=Local"
    [getenv "DB_USER", getenv "DB_PASSWORD", getenv "DB_HOST", getenv "DB_NAME"]

/-! ## ConnectDatabase -/

/-- Models `ConnectDatabase`. The result is the returned `error` (`none` is
nil). The assignment `db, err = gorm.Open(...)` stores the first result in the
package variable before `err` is inspected. -/
def ConnectDatabase (D : Driver W) (st : State W) : Option String × State W :=
  let st0 := st.emit .enterConnectDatabase
  let target := dsn (D.getenv st0.world)
  let st1 := st0.emit (.gormOpen target)
  match D.gormOpen st1.world target with
  | (.fail d err, w) =>
    (some ("failed to connect to database: " ++ err), { st1 with world := w, db := d })
  | (.ok h, w) =>
    let st2 : State W := { st1 with world := w, db := some h, live := st1.live ++ [h] }
    let st3 := st2.emit (.dbDB h)
    match D.getDB st3.world h with
    | .error err => (some ("failed to get database instance: " ++ err), st3)
    | .ok s =>
      let st4 := st3.emit (.ping s)
      match D.ping st4.world s with
      | (some err, w2) =>
        (some ("failed to ping database: " ++ err), { st4 with world := w2 })
      | (none, w2) =>
        (none, State.log { st4 with world := w2 } "Database connected successfully")

/-! ## The HTTP context (fiber) -/

/-- An inbound HTTP request, as far as routing looks at it. -/
structure Request where
  method : String
  path : String
  deriving DecidableEq, Repr

/-- The response under construction. -/
structure Response where
  status : Nat
  body : String
  deriving DecidableEq, Repr

/-- Models `*fiber.Ctx`: the request and the response being built. -/
structure Ctx where
  req : Request
  resp : Response
  deriving DecidableEq, Repr

/-- The value of `fiber.StatusInternalServerError`. -/
def StatusInternalServerError : Nat := 500

/-- The value of `fiber.StatusOK`, the status of a fresh response. -/
def StatusOK : Nat := 200

/-- Models `c.Status(code)`: sets the status and returns the context. -/
def Ctx.Status (c : Ctx) (code : Nat) : Ctx :=
  { c with resp := { c.resp with status := code } }

/-- Models `c.SendString(body)`: sets the body; the returned error is nil. -/
def Ctx.SendString (c : Ctx) (body : String) : Option String × Ctx :=
  (none, { c with resp := { c.resp with body := body } })

/-- A fiber handler: it returns an `error` (`none` is nil), or panics. -/
abbrev Handler (W : Type) := State W → Ctx → Outcome (Option String × State W × Ctx)

/-! ## DBMiddleware -/

/-- The liveness probe of lines 51-52 on a non-nil handle: the value of
`err != nil || sqlDB.Ping() != nil` (with Go's short-circuit, so `Ping` runs
only when `db.DB()` returned no error) and the state after it. -/
def probe (D : Driver W) (st : State W) (h : Handle) : Bool × State W :=
  let st1 := st.emit (.dbDB h)
  match D.getDB st1.world h with
  | .error _ => (true, st1)
  | .ok s =>
    let st2 := st1.emit (.ping s)
    match D.ping st2.world s with
    | (e, w) => (e.isSome, { st2 with world := w })

/-- Models `DBMiddleware`; `next` is the rest of the handler chain, run by
`c.Next()`. `(*gorm.DB).DB` starts by reading `db.ConnPool`, a field reached
through its receiver, so the call `db.DB()` on a nil `db` is a nil pointer
dereference. -/
def DBMiddleware (D : Driver W) (next : Handler W) : Handler W := fun st c =>
  match st.db with
  | none => .panic nilDeref
  | some h =>
    match probe D st h with
    | (true, st1) =>
      let st2 := st1.log "Reconnecting to the database..."
      match ConnectDatabase D st2 with
      | (some err, st3) =>
        let st4 := st3.log ("Failed to reconnect to the database: " ++ err)
        match (c.Status StatusInternalServerError).SendString "Database connection error" with
        | (e, c1) => .ret (e, st4, c1)
      | (none, st3) => next (st3.emit .next) c
    | (false, st1) => next (st1.emit .next) c

/-! ## GracefulShutdown -/

/-- Models `GracefulShutdown`. As in `DBMiddleware`, `db.DB()` on a nil `db`
is a nil pointer dereference. -/
def GracefulShutdown (D : Driver W) (st : State W) : Outcome (State W) :=
  match st.db with
  | none => .panic nilDeref
  | some h =>
    let st1 := st.emit (.dbDB h)
    match D.getDB st1.world h with
    | .error _ => .ret st1
    | .ok s =>
      let st2 := st1.emit (.close s)
      match D.close st2.world s with
      | (some err, w) =>
        .ret (State.log { st2 with world := w, live := st2.live.erase h }
          ("Error closing database connection: " ++ err))
      | (none, w) =>
        .ret (State.log { st2 with world := w, live := st2.live.erase h }
          "Database connection closed successfully!")

/-! ## main -/

/-- The route registered by `app.Get("/", ...)`. -/
def helloHandler : Handler W := fun st c =>
  match c.SendString "Hello, Calendar!" with
  | (e, c1) => .ret (e, st, c1)

/-- Models `html.EscapeString`, which fiber applies to the path in its
route-not-found error: the five characters `<`, `>`, `&`, the single quote
(code 39) and the double quote (code 34) are replaced by their entities. -/
def escapeString (s : String) : String :=
  ⟨s.data.flatMap fun ch =>
    if ch = '<' then "&lt;".data
    else if ch = '>' then "&gt;".data
    else if ch = '&' then "&amp;".data
    else if ch = Char.ofNat 39 then "&#39;".data
    else if ch = Char.ofNat 34 then "&#34;".data
    else [ch]⟩

/-- What `c.Next()` reaches after `DBMiddleware` in the application of `main`.
`app.Get("/", ...)` registers the sample route for `GET` and for `HEAD`; for
another method on `/` fiber returns its method-not-allowed error, and for
every other path its route-not-found error, with the path escaped. -/
def appNext : Handler W := fun st c =>
  if (c.req.method = "GET" ∨ c.req.method = "HEAD") ∧ c.req.path = "/" then
    helloHandler st c
  else if c.req.path = "/" then .ret (some "Method Not Allowed", st, c)
  else .ret (some ("Cannot " ++ c.req.method ++ " " ++ escapeString c.req.path), st, c)

/-- One request through the application: a fresh context (status 200, empty
body) enters the chain `DBMiddleware`, then the routes. -/
def handleRequest (D : Driver W) (st : State W) (r : Request) :
    Outcome (Option String × State W × Ctx) :=
  DBMiddleware D appNext st { req := r, resp := { status := StatusOK, body := "" } }

/-- The initial state of the process: `db` is the zero value nil. -/
def initState (w : W) : State W :=
  { world := w, db := none, live := [], trace := [] }

/-- Lines 76-96 of `main`: the initial `ConnectDatabase`, fatal on error
(`Sum.inl`, after `log.Fatalf`), then the middleware and the route are
registered and the listener is started (`Sum.inr`). -/
def startup (D : Driver W) (w : W) : State W ⊕ State W :=
  match ConnectDatabase D (initState w) with
  | (some err, st) =>
    .inl ((st.log ("Error connecting to the database: " ++ err)).emit (.exit 1))
  | (none, st) => .inr (st.emit (.listen ":3000"))

/-- The Running state: requests are served one after the other. A panic in a
handler is not recovered and ends the process. -/
def serve (D : Driver W) : State W → List Request → Outcome (State W)
  | st, [] => .ret st
  | st, r :: rs =>
    match handleRequest D st r with
    | .panic msg => .panic msg
    | .ret (_, st1, _) => serve D st1 rs

/-- Lines 103-106 of `main`, run once the signal is received:
the log line, `GracefulShutdown()`, then `app.Shutdown()`. -/
def shutdownPath (D : Driver W) (st : State W) : Outcome (State W) :=
  match GracefulShutdown D (st.log "Shutting down successfully...") with
  | .panic msg => .panic msg
  | .ret st1 => .ret (st1.emit .appShutdown)

/-- How the process ends. -/
inductive Exit (W : Type) where
  | fatal (st : State W)
  | crashed (msg : String)
  | done (st : State W)

/-- Models `main` for a run in which `reqs` are the requests served before the
termination signal arrives. -/
def main (D : Driver W) (w : W) (reqs : List Request) : Exit W :=
  match startup D w with
  | .inl st => .fatal st
  | .inr st =>
    match serve D st reqs with
    | .panic msg => .crashed msg
    | .ret st1 =>
      match shutdownPath D st1 with
      | .panic msg => .crashed msg
      | .ret st2 => .done st2

/-- The state of the Running phase after `reqs` have been served, when the
process got that far. -/
def running (D : Driver W) (w : W) (reqs : List Request) : Option (State W) :=
  match startup D w with
  | .inl _ => none
  | .inr st =>
    match serve D st reqs with
    | .panic _ => none
    | .ret st1 => some st1

/-! ## Concrete drivers used to run the model -/

/-- A database that answers every call: handle and session `w + 1` are created
by the open at world `w`, every ping and close succeeds. -/
def healthyDriver : Driver Nat where
  getenv := fun _ name =>
    if name = "DB_USER" then "u" else if name = "DB_PASSWORD" then "p"
    else if name = "DB_HOST" then "localhost" else if name = "DB_NAME" then "cal" else ""
  gormOpen := fun w _ => (.ok (w + 1), w + 1)
  getDB := fun _ h => .ok h
  ping := fun w _ => (none, w + 1)
  close := fun w _ => (none, w + 1)

/-- A database that drops its connections once: the world is a clock that
ticks at every open, ping and close; the ping at tick 2 fails, every other
call succeeds. -/
def restartDriver : Driver Nat :=
  { healthyDriver with
    ping := fun w _ => (if w = 2 then some "driver: bad connection" else none, w + 1) }

/-- A database that accepts the open but refuses every ping. -/
def unreachableDriver : Driver Nat :=
  { healthyDriver with ping := fun w _ => (some "dial tcp: connection refused", w + 1) }

/-- A driver whose open step fails and returns no handle, and whose sessions
refuse every ping. -/
def noOpenDriver : Driver Nat :=
  { healthyDriver with
    gormOpen := fun w _ => (.fail none "invalid DSN", w + 1)
    ping := fun w _ => (some "driver: bad connection", w + 1) }

/-- A driver whose handles have no underlying session. -/
def noSessionDriver : Driver Nat :=
  { healthyDriver with getDB := fun _ _ => .error "invalid db" }

/-- A database whose session close reports an error. -/
def closeErrDriver : Driver Nat :=
  { healthyDriver with close := fun w _ => (some "close failed", w + 1) }

/-- A state in which `db` holds handle 7, opened earlier. -/
def staleState : State Nat :=
  { world := 0, db := some 7, live := [7], trace := [] }

/-- The request `GET /`. -/
def getRoot : Request :=
  { method := "GET", path := "/" }

/-- The fresh context of a `GET /` request. -/
def getRootCtx : Ctx :=
  { req := getRoot, resp := { status := StatusOK, body := "" } }

/-! ## Helpers for the statements -/

/-- The first result of `gorm.Open`, the value assigned to `db`. -/
def OpenResult.db : OpenResult → Option Handle
  | .ok h => some h
  | .fail d _ => d

/-- Number of `ConnectDatabase` calls recorded in a trace. -/
def connectCalls (tr : List Event) : Nat :=
  tr.count .enterConnectDatabase

/-- Recognises a `gorm.Open` call in the trace. -/
def isGormOpen : Event → Bool
  | .gormOpen _ => true
  | _ => false

/-- Recognises a session close in the trace. -/
def isClose : Event → Bool
  | .close _ => true
  | _ => false

/-- The state in which `DBMiddleware` calls `ConnectDatabase`: after the probe
on handle `h` and the log line "Reconnecting to the database...". -/
def reconnectState (D : Driver W) (st : State W) (h : Handle) : State W :=
  (probe D st h).2.log "Reconnecting to the database..."

/-- The line `GracefulShutdown` logs for the outcome of `sqlDB.Close()`. -/
def closeLine : Option String → String
  | some err => "Error closing database connection: " ++ err
  | none => "Database connection closed successfully!"

/-- A run from `st` to `st1` of the Running phase: it only appended events,
among them at most `n` `ConnectDatabase` calls, each with its one `gorm.Open`
and no `gorm.Open` elsewhere, and no close; and it only appended handles to
the open ones, at most one per `ConnectDatabase` call. -/
def Grows (st st1 : State W) (n : Nat) : Prop :=
  ∃ evs add, st1.trace = st.trace ++ evs ∧ connectCalls evs ≤ n ∧
    evs.countP isGormOpen = connectCalls evs ∧ evs.countP isClose = 0 ∧
    st1.live = st.live ++ add ∧ add.length ≤ connectCalls evs

/-! ## The connection target string -/

theorem dsn_data (getenv : String → String) :
    (dsn getenv).data =
      (getenv "DB_USER").data ++ ':' :: ((getenv "DB_PASSWORD").data ++
        ("@tcp(".data ++ ((getenv "DB_HOST").data ++ (")/".data ++ ((getenv "DB_NAME").data ++
          "?charset=utf8mb4&parseTime=True&loc=Local".data))))) := by
  simp [dsn, Sprintf, sprintfAux]

theorem dsn_eq (getenv : String → String) :
    dsn getenv = getenv "DB_USER" ++ ":" ++ getenv "DB_PASSWORD" ++ "@tcp(" ++ getenv "DB_HOST"
      ++ ")/" ++ getenv "DB_NAME" ++ "?charset=utf8mb4&parseTime=True&loc=Local" := by
  apply String.ext
  rw [dsn_data]
  simp [String.data_append]

/-- The trace of a `ConnectDatabase` call starts with the entry marker and the
`gorm.Open` call on the target built from the environment of that moment. -/
theorem ConnectDatabase_trace_head (D : Driver W) (st : State W) :
    ∃ tl, (ConnectDatabase D st).2.trace =
      st.trace ++ (.enterConnectDatabase :: .gormOpen (dsn (D.getenv st.world)) :: tl) := by
  unfold ConnectDatabase
  simp only [State.emit, State.log]
  split
  · exact ⟨[], by simp⟩
  · split
    · simp only [List.append_assoc, List.cons_append, List.nil_append]
      exact ⟨_, rfl⟩
    · split <;>
      · simp only [List.append_assoc, List.cons_append, List.nil_append]
        exact ⟨_, rfl⟩

/-- C9 (as amended): for every environment, the connection target string that
`ConnectDatabase` builds and hands to `gorm.Open` is
`DB_USER:DB_PASSWORD@tcp(DB_HOST)/DB_NAME` followed by the fixed options
`?charset=utf8mb4&parseTime=True&loc=Local`, the variables being read from the
environment at the time of the call. -/
theorem C9_target_string (D : Driver W) (st : State W) :
    ∃ tl, (ConnectDatabase D st).2.trace =
      st.trace ++ (.enterConnectDatabase ::
        .gormOpen (D.getenv st.world "DB_USER" ++ ":" ++ D.getenv st.world "DB_PASSWORD"
          ++ "@tcp(" ++ D.getenv st.world "DB_HOST" ++ ")/" ++ D.getenv st.world "DB_NAME"
          ++ "?charset=utf8mb4&parseTime=True&loc=Local") :: tl)
      ∧ dsn (D.getenv st.world) =
        D.getenv st.world "DB_USER" ++ ":" ++ D.getenv st.world "DB_PASSWORD"
          ++ "@tcp(" ++ D.getenv st.world "DB_HOST" ++ ")/" ++ D.getenv st.world "DB_NAME"
          ++ "?charset=utf8mb4&parseTime=True&loc=Local" := by
  obtain ⟨tl, h⟩ := ConnectDatabase_trace_head D st
  refine ⟨tl, ?_, dsn_eq _⟩
  rw [h, dsn_eq]

/-- C9 (counterexample): with `DB_USER=u`, `DB_PASSWORD=p`, `DB_HOST=localhost`,
`DB_NAME=cal` the target string is `u:p@tcp(localhost)/cal?...`; it is not
`u:p@localhost/cal` followed by anything. -/
theorem C9_target_not_plain_host :
    dsn (healthyDriver.getenv 0) =
        "u:p@tcp(localhost)/cal?charset=utf8mb4&parseTime=True&loc=Local"
      ∧ ¬ ∃ options : String, dsn (healthyDriver.getenv 0) =
          healthyDriver.getenv 0 "DB_USER" ++ ":" ++ healthyDriver.getenv 0 "DB_PASSWORD" ++ "@"
            ++ healthyDriver.getenv 0 "DB_HOST" ++ "/" ++ healthyDriver.getenv 0 "DB_NAME"
            ++ options := by
  have h0 : dsn (healthyDriver.getenv 0) =
      "u:p@tcp(localhost)/cal?charset=utf8mb4&parseTime=True&loc=Local" := by decide
  refine ⟨h0, ?_⟩
  rintro ⟨options, h⟩
  rw [h0] at h
  have h1 := congrArg (fun s : String => s.data.take 5) h
  simp [String.data_append, healthyDriver] at h1

/-! ## ConnectDatabase, case by case -/

theorem ConnectDatabase_open_fail (D : Driver W) (st : State W) (d : Option Handle)
    (err : String) (w : W)
    (ho : D.gormOpen st.world (dsn (D.getenv st.world)) = (.fail d err, w)) :
    ConnectDatabase D st = (some ("failed to connect to database: " ++ err),
      { world := w, db := d, live := st.live,
        trace := st.trace ++ [.enterConnectDatabase, .gormOpen (dsn (D.getenv st.world))] }) := by
  simp [ConnectDatabase, State.emit, ho]

theorem ConnectDatabase_session_fail (D : Driver W) (st : State W) (h : Handle)
    (err : String) (w : W)
    (ho : D.gormOpen st.world (dsn (D.getenv st.world)) = (.ok h, w))
    (hs : D.getDB w h = .error err) :
    ConnectDatabase D st = (some ("failed to get database instance: " ++ err),
      { world := w, db := some h, live := st.live ++ [h],
        trace := st.trace ++ [.enterConnectDatabase, .gormOpen (dsn (D.getenv st.world)),
          .dbDB h] }) := by
  simp [ConnectDatabase, State.emit, ho, hs]

theorem ConnectDatabase_ping_fail (D : Driver W) (st : State W) (h : Handle) (s : Session)
    (err : String) (w w2 : W)
    (ho : D.gormOpen st.world (dsn (D.getenv st.world)) = (.ok h, w))
    (hs : D.getDB w h = .ok s) (hp : D.ping w s = (some err, w2)) :
    ConnectDatabase D st = (some ("failed to ping database: " ++ err),
      { world := w2, db := some h, live := st.live ++ [h],
        trace := st.trace ++ [.enterConnectDatabase, .gormOpen (dsn (D.getenv st.world)),
          .dbDB h, .ping s] }) := by
  simp [ConnectDatabase, State.emit, ho, hs, hp]

theorem ConnectDatabase_ok (D : Driver W) (st : State W) (h : Handle) (s : Session)
    (w w2 : W)
    (ho : D.gormOpen st.world (dsn (D.getenv st.world)) = (.ok h, w))
    (hs : D.getDB w h = .ok s) (hp : D.ping w s = (none, w2)) :
    ConnectDatabase D st = (none,
      { world := w2, db := some h, live := st.live ++ [h],
        trace := st.trace ++ [.enterConnectDatabase, .gormOpen (dsn (D.getenv st.world)),
          .dbDB h, .ping s, .log "Database connected successfully"] }) := by
  simp [ConnectDatabase, State.emit, State.log, ho, hs, hp]

/-- The four ways a `ConnectDatabase` call can go, with the error it returns. -/
theorem ConnectDatabase_cases (D : Driver W) (st : State W) :
    (∃ d err w, D.gormOpen st.world (dsn (D.getenv st.world)) = (.fail d err, w) ∧
        (ConnectDatabase D st).1 = some ("failed to connect to database: " ++ err)) ∨
    (∃ h err w, D.gormOpen st.world (dsn (D.getenv st.world)) = (.ok h, w) ∧
        D.getDB w h = .error err ∧
        (ConnectDatabase D st).1 = some ("failed to get database instance: " ++ err)) ∨
    (∃ h s err w w2, D.gormOpen st.world (dsn (D.getenv st.world)) = (.ok h, w) ∧
        D.getDB w h = .ok s ∧ D.ping w s = (some err, w2) ∧
        (ConnectDatabase D st).1 = some ("failed to ping database: " ++ err)) ∨
    (∃ h s w w2, D.gormOpen st.world (dsn (D.getenv st.world)) = (.ok h, w) ∧
        D.getDB w h = .ok s ∧ D.ping w s = (none, w2) ∧
        (ConnectDatabase D st).1 = none) := by
  rcases ho : D.gormOpen st.world (dsn (D.getenv st.world)) with ⟨r, w⟩
  cases r with
  | fail d err =>
    exact Or.inl ⟨d, err, w, rfl, by rw [ConnectDatabase_open_fail D st d err w ho]⟩
  | ok h =>
    cases hs : D.getDB w h with
    | error err =>
      exact Or.inr (Or.inl ⟨h, err, w, rfl, hs,
        by rw [ConnectDatabase_session_fail D st h err w ho hs]⟩)
    | ok s =>
      rcases hp : D.ping w s with ⟨e, w2⟩
      cases e with
      | some err =>
        exact Or.inr (Or.inr (Or.inl ⟨h, s, err, w, w2, rfl, hs, hp,
          by rw [ConnectDatabase_ping_fail D st h s err w w2 ho hs hp]⟩))
      | none =>
        exact Or.inr (Or.inr (Or.inr ⟨h, s, w, w2, rfl, hs, hp,
          by rw [ConnectDatabase_ok D st h s w w2 ho hs hp]⟩))

/-- After any `ConnectDatabase` call the package variable holds the first
result of that call's `gorm.Open`. -/
theorem ConnectDatabase_db (D : Driver W) (st : State W) :
    (ConnectDatabase D st).2.db =
      (D.gormOpen st.world (dsn (D.getenv st.world))).1.db := by
  rcases ho : D.gormOpen st.world (dsn (D.getenv st.world)) with ⟨r, w⟩
  cases r with
  | fail d err => rw [ConnectDatabase_open_fail D st d err w ho]; rfl
  | ok h =>
    cases hs : D.getDB w h with
    | error err => rw [ConnectDatabase_session_fail D st h err w ho hs]; rfl
    | ok s =>
      rcases hp : D.ping w s with ⟨e, w2⟩
      cases e with
      | some err => rw [ConnectDatabase_ping_fail D st h s err w w2 ho hs hp]; rfl
      | none => rw [ConnectDatabase_ok D st h s w w2 ho hs hp]; rfl

/-- Every `ConnectDatabase` call is recorded exactly once. -/
theorem ConnectDatabase_connectCalls (D : Driver W) (st : State W) :
    connectCalls (ConnectDatabase D st).2.trace = connectCalls st.trace + 1 := by
  rcases ho : D.gormOpen st.world (dsn (D.getenv st.world)) with ⟨r, w⟩
  cases r with
  | fail d err => rw [ConnectDatabase_open_fail D st d err w ho]; simp [connectCalls]
  | ok h =>
    cases hs : D.getDB w h with
    | error err => rw [ConnectDatabase_session_fail D st h err w ho hs]; simp [connectCalls]
    | ok s =>
      rcases hp : D.ping w s with ⟨e, w2⟩
      cases e with
      | some err =>
        rw [ConnectDatabase_ping_fail D st h s err w w2 ho hs hp]; simp [connectCalls]
      | none => rw [ConnectDatabase_ok D st h s w w2 ho hs hp]; simp [connectCalls]

/-- C4: `ConnectDatabase` returns nil exactly when the open step, the retrieval
of the session and the ping of that session all succeeded in that call, and
then the shared handle `db` is the newly opened handle, the one whose ping
succeeded; it returns an error exactly when one of the three steps fails. -/
theorem C4_ConnectDatabase_success_iff (D : Driver W) (st : State W) :
    ((ConnectDatabase D st).1 = none ↔
      ∃ h s w w2, D.gormOpen st.world (dsn (D.getenv st.world)) = (.ok h, w) ∧
        D.getDB w h = .ok s ∧ D.ping w s = (none, w2) ∧
        (ConnectDatabase D st).2.db = some h) ∧
    ((∃ msg, (ConnectDatabase D st).1 = some msg) ↔
      (∃ d err w, D.gormOpen st.world (dsn (D.getenv st.world)) = (.fail d err, w)) ∨
      (∃ h err w, D.gormOpen st.world (dsn (D.getenv st.world)) = (.ok h, w) ∧
        D.getDB w h = .error err) ∨
      (∃ h s err w w2, D.gormOpen st.world (dsn (D.getenv st.world)) = (.ok h, w) ∧
        D.getDB w h = .ok s ∧ D.ping w s = (some err, w2))) := by
  constructor
  · constructor
    · intro hnil
      rcases ConnectDatabase_cases D st with ⟨_, _, _, _, h1⟩ | ⟨_, _, _, _, _, h1⟩ |
        ⟨_, _, _, _, _, _, _, _, h1⟩ | ⟨h, s, w, w2, ho, hs, hp, _⟩
      · rw [hnil] at h1; cases h1
      · rw [hnil] at h1; cases h1
      · rw [hnil] at h1; cases h1
      · refine ⟨h, s, w, w2, ho, hs, hp, ?_⟩
        rw [ConnectDatabase_ok D st h s w w2 ho hs hp]
    · rintro ⟨h, s, w, w2, ho, hs, hp, _⟩
      rw [ConnectDatabase_ok D st h s w w2 ho hs hp]
  · constructor
    · rintro ⟨msg, hmsg⟩
      rcases ConnectDatabase_cases D st with ⟨d, err, w, ho, _⟩ | ⟨h, err, w, ho, hs, _⟩ |
        ⟨h, s, err, w, w2, ho, hs, hp, _⟩ | ⟨_, _, _, _, _, _, _, h1⟩
      · exact Or.inl ⟨d, err, w, ho⟩
      · exact Or.inr (Or.inl ⟨h, err, w, ho, hs⟩)
      · exact Or.inr (Or.inr ⟨h, s, err, w, w2, ho, hs, hp⟩)
      · rw [hmsg] at h1; cases h1
    · rintro (⟨d, err, w, ho⟩ | ⟨h, err, w, ho, hs⟩ | ⟨h, s, err, w, w2, ho, hs, hp⟩)
      · exact ⟨_, by rw [ConnectDatabase_open_fail D st d err w ho]⟩
      · exact ⟨_, by rw [ConnectDatabase_session_fail D st h err w ho hs]⟩
      · exact ⟨_, by rw [ConnectDatabase_ping_fail D st h s err w w2 ho hs hp]⟩

/-- C3 (as amended): if `ConnectDatabase` returns an error, the shared handle
`db` after the call is the first result of that call's `gorm.Open`: the newly
opened handle when the failure is in the session retrieval or the ping, and
whatever `gorm.Open` returned next to its error when the open step failed. -/
theorem C3_failure_db_is_open_result (D : Driver W) (st : State W)
    (hfail : (ConnectDatabase D st).1 ≠ none) :
    (ConnectDatabase D st).2.db =
      (D.gormOpen st.world (dsn (D.getenv st.world))).1.db ∧
    ((∃ h w, D.gormOpen st.world (dsn (D.getenv st.world)) = (.ok h, w)) →
      ∃ h, (ConnectDatabase D st).2.db = some h ∧ h ∈ (ConnectDatabase D st).2.live) := by
  refine ⟨ConnectDatabase_db D st, ?_⟩
  rintro ⟨h, w, ho⟩
  refine ⟨h, ?_, ?_⟩
  · rw [ConnectDatabase_db, ho]; rfl
  · cases hs : D.getDB w h with
    | error err => rw [ConnectDatabase_session_fail D st h err w ho hs]; simp
    | ok s =>
      rcases hp : D.ping w s with ⟨e, w2⟩
      cases e with
      | some err => rw [ConnectDatabase_ping_fail D st h s err w w2 ho hs hp]; simp
      | none =>
        rw [ConnectDatabase_ok D st h s w w2 ho hs hp] at hfail
        exact absurd rfl hfail

/-- C3 (witness): the database accepts the open and refuses the ping while
`db` holds handle 7. -/
theorem C3_failure_db_is_open_result_witness :
    (ConnectDatabase unreachableDriver
        { world := 0, db := some 7, live := [7], trace := [] }).1 ≠ none ∧
    (ConnectDatabase unreachableDriver
        { world := 0, db := some 7, live := [7], trace := [] }).2.db = some 1 :=
  ⟨by decide,
    (C3_failure_db_is_open_result unreachableDriver
      { world := 0, db := some 7, live := [7], trace := [] } (by decide)).1⟩

/-- C3 (counterexample): `db` holds handle 7. A call whose ping fails returns
an error and leaves the new handle 1 in `db`; a call whose open step fails
returns an error and leaves nil in `db`. In neither case is `db` the handle
from before the call. -/
theorem C3_failure_replaces_handle :
    (ConnectDatabase unreachableDriver
        { world := 0, db := some 7, live := [7], trace := [] }).1
      = some "failed to ping database: dial tcp: connection refused" ∧
    (ConnectDatabase unreachableDriver
        { world := 0, db := some 7, live := [7], trace := [] }).2.db = some 1 ∧
    (ConnectDatabase noOpenDriver
        { world := 0, db := some 7, live := [7], trace := [] }).1
      = some "failed to connect to database: invalid DSN" ∧
    (ConnectDatabase noOpenDriver
        { world := 0, db := some 7, live := [7], trace := [] }).2.db = none ∧
    ¬ ∀ (D : Driver Nat) (st : State Nat),
        (ConnectDatabase D st).1 ≠ none → (ConnectDatabase D st).2.db = st.db := by
  refine ⟨by decide, by decide, by decide, by decide, ?_⟩
  intro hall
  have h := hall unreachableDriver { world := 0, db := some 7, live := [7], trace := [] }
    (by decide)
  revert h
  decide

/-! ## The probe and DBMiddleware, case by case -/

theorem probe_session_fail (D : Driver W) (st : State W) (h : Handle) (err : String)
    (hs : D.getDB st.world h = .error err) :
    probe D st h = (true, { st with trace := st.trace ++ [.dbDB h] }) := by
  simp [probe, State.emit, hs]

theorem probe_ping (D : Driver W) (st : State W) (h : Handle) (s : Session)
    (e : Option String) (w : W)
    (hs : D.getDB st.world h = .ok s) (hp : D.ping st.world s = (e, w)) :
    probe D st h =
      (e.isSome, { st with world := w, trace := st.trace ++ [.dbDB h, .ping s] }) := by
  simp [probe, State.emit, hs, hp]

/-- The probe fails exactly when `db.DB()` returns an error or `Ping` returns
an error. -/
theorem probe_true_iff (D : Driver W) (st : State W) (h : Handle) :
    (probe D st h).1 = true ↔
      (∃ err, D.getDB st.world h = .error err) ∨
      (∃ s err w, D.getDB st.world h = .ok s ∧ D.ping st.world s = (some err, w)) := by
  cases hs : D.getDB st.world h with
  | error err => rw [probe_session_fail D st h err hs]; simp
  | ok s =>
    rcases hp : D.ping st.world s with ⟨e, w⟩
    rw [probe_ping D st h s e w hs hp]
    cases e <;> simp [hp]

/-- The probe touches neither `db` nor the open handles; it records its own
calls and nothing else. -/
theorem probe_frame (D : Driver W) (st : State W) (h : Handle) :
    (probe D st h).2.db = st.db ∧ (probe D st h).2.live = st.live ∧
    ((probe D st h).2.trace = st.trace ++ [.dbDB h] ∨
      ∃ s, D.getDB st.world h = .ok s ∧
        (probe D st h).2.trace = st.trace ++ [.dbDB h, .ping s]) := by
  cases hs : D.getDB st.world h with
  | error err => rw [probe_session_fail D st h err hs]; simp
  | ok s =>
    rcases hp : D.ping st.world s with ⟨e, w⟩
    rw [probe_ping D st h s e w hs hp]
    simp

theorem DBMiddleware_healthy (D : Driver W) (next : Handler W) (st : State W) (c : Ctx)
    (h : Handle) (hdb : st.db = some h) (hprobe : (probe D st h).1 = false) :
    DBMiddleware D next st c = next ((probe D st h).2.emit .next) c := by
  unfold DBMiddleware
  simp only [hdb]
  rcases hp : probe D st h with ⟨b, st1⟩
  rw [hp] at hprobe
  simp only at hprobe
  subst hprobe
  rfl

theorem DBMiddleware_reconnect_ok (D : Driver W) (next : Handler W) (st : State W) (c : Ctx)
    (h : Handle) (hdb : st.db = some h) (hprobe : (probe D st h).1 = true)
    (hconn : (ConnectDatabase D (reconnectState D st h)).1 = none) :
    DBMiddleware D next st c =
      next ((ConnectDatabase D (reconnectState D st h)).2.emit .next) c := by
  unfold DBMiddleware
  unfold reconnectState at *
  simp only [hdb]
  rcases hp : probe D st h with ⟨b, st1⟩
  rw [hp] at hprobe hconn
  simp only at hprobe hconn
  subst hprobe
  rcases hc : ConnectDatabase D (st1.log "Reconnecting to the database...") with ⟨e, st3⟩
  rw [hc] at hconn
  simp only at hconn
  subst hconn
  simp [hc, Ctx.Status, Ctx.SendString, StatusInternalServerError]

theorem DBMiddleware_reconnect_fail (D : Driver W) (next : Handler W) (st : State W) (c : Ctx)
    (h : Handle) (err : String) (hdb : st.db = some h) (hprobe : (probe D st h).1 = true)
    (hconn : (ConnectDatabase D (reconnectState D st h)).1 = some err) :
    DBMiddleware D next st c =
      .ret (none,
        (ConnectDatabase D (reconnectState D st h)).2.log
          ("Failed to reconnect to the database: " ++ err),
        { req := c.req, resp := { status := 500, body := "Database connection error" } }) := by
  unfold DBMiddleware
  unfold reconnectState at *
  simp only [hdb]
  rcases hp : probe D st h with ⟨b, st1⟩
  rw [hp] at hprobe hconn
  simp only at hprobe hconn
  subst hprobe
  rcases hc : ConnectDatabase D (st1.log "Reconnecting to the database...") with ⟨e, st3⟩
  rw [hc] at hconn
  simp only at hconn
  subst hconn
  simp [hc, Ctx.Status, Ctx.SendString, StatusInternalServerError]

/-- What a `ConnectDatabase` call adds to the state: its own events, among
them one entry marker and one `gorm.Open`, no `c.Next()` and no close, and at
most one more open handle. -/
theorem ConnectDatabase_frame (D : Driver W) (st : State W) :
    ∃ evs, (ConnectDatabase D st).2.trace = st.trace ++ evs ∧ Event.next ∉ evs ∧
      connectCalls evs = 1 ∧ evs.countP isGormOpen = 1 ∧
      (ConnectDatabase D st).2.live.length ≤ st.live.length + 1 := by
  rcases ho : D.gormOpen st.world (dsn (D.getenv st.world)) with ⟨r, w⟩
  cases r with
  | fail d err =>
    rw [ConnectDatabase_open_fail D st d err w ho]
    exact ⟨_, rfl, by simp, by simp [connectCalls], by simp [isGormOpen], by simp⟩
  | ok h =>
    cases hs : D.getDB w h with
    | error err =>
      rw [ConnectDatabase_session_fail D st h err w ho hs]
      exact ⟨_, rfl, by simp, by simp [connectCalls], by simp [isGormOpen], by simp⟩
    | ok s =>
      rcases hp : D.ping w s with ⟨e, w2⟩
      cases e with
      | some err =>
        rw [ConnectDatabase_ping_fail D st h s err w w2 ho hs hp]
        exact ⟨_, rfl, by simp, by simp [connectCalls], by simp [isGormOpen], by simp⟩
      | none =>
        rw [ConnectDatabase_ok D st h s w w2 ho hs hp]
        exact ⟨_, rfl, by simp, by simp [connectCalls], by simp [isGormOpen], by simp⟩

/-- What the probe adds to the trace: its own calls, no `ConnectDatabase`, no
`gorm.Open`, no `c.Next()`. -/
theorem probe_events (D : Driver W) (st : State W) (h : Handle) :
    ∃ evs, (probe D st h).2.trace = st.trace ++ evs ∧ Event.next ∉ evs ∧
      connectCalls evs = 0 ∧ evs.countP isGormOpen = 0 := by
  rcases (probe_frame D st h).2.2 with ht | ⟨s, _, ht⟩
  · exact ⟨_, ht, by simp, by simp [connectCalls], by simp [isGormOpen]⟩
  · exact ⟨_, ht, by simp, by simp [connectCalls], by simp [isGormOpen]⟩

/-- C1: when the liveness probe fails (`db.DB()` or `Ping` returns an error)
and the `ConnectDatabase` call that follows returns an error, `DBMiddleware`
answers with status 500 and never invokes the next handler: no `c.Next()` is
among the effects of the request, and the outcome is the same whatever the
next handler is. -/
theorem C1_reconnect_failure_rejects (D : Driver W) (next : Handler W) (st : State W)
    (c : Ctx) (h : Handle) (hdb : st.db = some h) (hprobe : (probe D st h).1 = true)
    (hconn : (ConnectDatabase D (reconnectState D st h)).1 ≠ none) :
    ∃ st1 evs, DBMiddleware D next st c =
        .ret (none, st1,
          { req := c.req, resp := { status := 500, body := "Database connection error" } }) ∧
      st1.trace = st.trace ++ evs ∧ Event.next ∉ evs ∧
      ∀ other : Handler W, DBMiddleware D other st c = DBMiddleware D next st c := by
  obtain ⟨err, herr⟩ := Option.ne_none_iff_exists'.mp hconn
  obtain ⟨e1, ht1, hn1, -, -⟩ := probe_events D st h
  obtain ⟨e2, ht2, hn2, -, -, -⟩ := ConnectDatabase_frame D (reconnectState D st h)
  refine ⟨_, e1 ++ [.log "Reconnecting to the database..."] ++ e2 ++
    [.log ("Failed to reconnect to the database: " ++ err)],
    DBMiddleware_reconnect_fail D next st c h err hdb hprobe herr, ?_, ?_, ?_⟩
  · show (ConnectDatabase D (reconnectState D st h)).2.trace ++ [_] = _
    rw [ht2]
    simp [reconnectState, State.log, State.emit, ht1]
  · simp [hn1, hn2]
  · intro other
    rw [DBMiddleware_reconnect_fail D next st c h err hdb hprobe herr,
      DBMiddleware_reconnect_fail D other st c h err hdb hprobe herr]

/-- C1 (witness): handle 7 is stale and the database refuses every ping. -/
theorem C1_reconnect_failure_rejects_witness :
    staleState.db = some 7 ∧ (probe unreachableDriver staleState 7).1 = true ∧
    (ConnectDatabase unreachableDriver (reconnectState unreachableDriver staleState 7)).1
      ≠ none ∧
    ∃ st1 evs, DBMiddleware unreachableDriver appNext staleState getRootCtx =
        .ret (none, st1,
          { req := getRootCtx.req,
            resp := { status := 500, body := "Database connection error" } }) ∧
      st1.trace = staleState.trace ++ evs ∧ Event.next ∉ evs ∧
      ∀ other : Handler Nat, DBMiddleware unreachableDriver other staleState getRootCtx =
        DBMiddleware unreachableDriver appNext staleState getRootCtx :=
  ⟨rfl, by decide, by decide,
    C1_reconnect_failure_rejects unreachableDriver appNext staleState getRootCtx 7 rfl
      (by decide) (by decide)⟩

/-- The state in which `DBMiddleware` calls `ConnectDatabase` has seen no
`ConnectDatabase` call since the request came in. -/
theorem reconnectState_connectCalls (D : Driver W) (st : State W) (h : Handle) :
    connectCalls (reconnectState D st h).trace = connectCalls st.trace := by
  obtain ⟨e1, ht1, -, hc1, -⟩ := probe_events D st h
  unfold connectCalls at *
  simp [reconnectState, State.log, State.emit, ht1, hc1]

/-- C2: when the liveness probe fails, `DBMiddleware` calls `ConnectDatabase`
exactly once (the state it leaves has one more recorded call than the state
the request came in with, whether the call succeeds or not), and if the call
succeeds the middleware invokes the next handler and returns its result. -/
theorem C2_reconnect_once_then_next (D : Driver W) (next : Handler W) (st : State W)
    (c : Ctx) (h : Handle) (hdb : st.db = some h) (hprobe : (probe D st h).1 = true) :
    ((ConnectDatabase D (reconnectState D st h)).1 = none →
      DBMiddleware D next st c =
          next ((ConnectDatabase D (reconnectState D st h)).2.emit .next) c ∧
        connectCalls ((ConnectDatabase D (reconnectState D st h)).2.emit .next).trace =
          connectCalls st.trace + 1) ∧
    (∀ err, (ConnectDatabase D (reconnectState D st h)).1 = some err →
      ∃ st1 c1, DBMiddleware D next st c = .ret (none, st1, c1) ∧
        connectCalls st1.trace = connectCalls st.trace + 1) := by
  have hcount := ConnectDatabase_connectCalls D (reconnectState D st h)
  rw [reconnectState_connectCalls] at hcount
  constructor
  · intro hok
    refine ⟨DBMiddleware_reconnect_ok D next st c h hdb hprobe hok, ?_⟩
    unfold connectCalls at *
    simp [State.emit, hcount]
  · intro err herr
    refine ⟨_, _, DBMiddleware_reconnect_fail D next st c h err hdb hprobe herr, ?_⟩
    unfold connectCalls at *
    simp [State.log, State.emit, hcount]

/-- C2 (witness): handle 1 stopped answering at tick 2 and the database is back
for the reconnect. -/
theorem C2_reconnect_once_then_next_witness :
    (probe restartDriver { world := 2, db := some 1, live := [1], trace := [] } 1).1 = true ∧
    (ConnectDatabase restartDriver
        (reconnectState restartDriver
          { world := 2, db := some 1, live := [1], trace := [] } 1)).1 = none ∧
    DBMiddleware restartDriver appNext
        { world := 2, db := some 1, live := [1], trace := [] } getRootCtx =
      appNext ((ConnectDatabase restartDriver
        (reconnectState restartDriver
          { world := 2, db := some 1, live := [1], trace := [] } 1)).2.emit .next)
        getRootCtx ∧
    connectCalls ((ConnectDatabase restartDriver
        (reconnectState restartDriver
          { world := 2, db := some 1, live := [1], trace := [] } 1)).2.emit .next).trace =
      connectCalls ([] : List Event) + 1 :=
  ⟨by decide, by decide,
    (C2_reconnect_once_then_next restartDriver appNext
      { world := 2, db := some 1, live := [1], trace := [] } getRootCtx 1 rfl
      (by decide)).1 (by decide)⟩

/-- C5: when the liveness probe on the current handle succeeds, a `GET /`
request goes through `DBMiddleware` to the route handler: the effects of the
request are the two probe calls and `c.Next()`, so no `ConnectDatabase` call
is made, the shared handle and the open handles are unchanged, and the
response has status 200 and body `Hello, Calendar!`. -/
theorem C5_healthy_get_root (D : Driver W) (st : State W) (h : Handle)
    (hdb : st.db = some h) (hprobe : (probe D st h).1 = false) :
    ∃ st1 s, handleRequest D st { method := "GET", path := "/" } =
        .ret (none, st1,
          { req := { method := "GET", path := "/" },
            resp := { status := 200, body := "Hello, Calendar!" } }) ∧
      handleRequest D st { method := "GET", path := "/" } =
        helloHandler ((probe D st h).2.emit .next)
          { req := { method := "GET", path := "/" }, resp := { status := 200, body := "" } } ∧
      st1.db = st.db ∧ st1.live = st.live ∧
      st1.trace = st.trace ++ [.dbDB h, .ping s, .next] ∧
      connectCalls st1.trace = connectCalls st.trace := by
  have hmw := DBMiddleware_healthy D appNext st
    { req := { method := "GET", path := "/" }, resp := { status := StatusOK, body := "" } }
    h hdb hprobe
  cases hs : D.getDB st.world h with
  | error err =>
    rw [probe_session_fail D st h err hs] at hprobe
    cases hprobe
  | ok s =>
    rcases hp : D.ping st.world s with ⟨e, w⟩
    rw [probe_ping D st h s e w hs hp] at hprobe hmw
    refine ⟨State.mk w st.db st.live (st.trace ++ [.dbDB h, .ping s, .next]), s,
      ?_, ?_, rfl, rfl, rfl, ?_⟩
    · unfold handleRequest
      rw [hmw]
      simp [appNext, helloHandler, Ctx.SendString, StatusOK, State.emit]
    · unfold handleRequest
      rw [hmw, probe_ping D st h s e w hs hp]
      simp [appNext, StatusOK]
    · simp [connectCalls]

/-- C5 (witness): a healthy database and the handle opened at startup. -/
theorem C5_healthy_get_root_witness :
    (probe healthyDriver { world := 2, db := some 1, live := [1], trace := [] } 1).1 = false ∧
    ∃ st1 s, handleRequest healthyDriver { world := 2, db := some 1, live := [1], trace := [] }
          { method := "GET", path := "/" } =
        .ret (none, st1,
          { req := { method := "GET", path := "/" },
            resp := { status := 200, body := "Hello, Calendar!" } }) ∧
      handleRequest healthyDriver { world := 2, db := some 1, live := [1], trace := [] }
          { method := "GET", path := "/" } =
        helloHandler
          ((probe healthyDriver
            { world := 2, db := some 1, live := [1], trace := [] } 1).2.emit .next)
          { req := { method := "GET", path := "/" }, resp := { status := 200, body := "" } } ∧
      st1.db = some 1 ∧ st1.live = [1] ∧
      st1.trace = [] ++ [.dbDB 1, .ping s, .next] ∧
      connectCalls st1.trace = connectCalls [] :=
  ⟨by decide,
    C5_healthy_get_root healthyDriver { world := 2, db := some 1, live := [1], trace := [] } 1
      rfl (by decide)⟩

/-- C10: the response `DBMiddleware` sends when reconnection fails does not
depend on the cause. Two failing runs, under any two drivers and states and
with any two errors `e1`, `e2` returned by `ConnectDatabase`, return the same
value and send the same status and body for the same request; each cause
appears in the log line of its own run. -/
theorem C10_failure_response_uniform {W1 W2 : Type} (D1 : Driver W1) (D2 : Driver W2)
    (next1 : Handler W1) (next2 : Handler W2) (st1 : State W1) (st2 : State W2) (c : Ctx)
    (h1 h2 : Handle) (e1 e2 : String)
    (hdb1 : st1.db = some h1) (hdb2 : st2.db = some h2)
    (hprobe1 : (probe D1 st1 h1).1 = true) (hprobe2 : (probe D2 st2 h2).1 = true)
    (hconn1 : (ConnectDatabase D1 (reconnectState D1 st1 h1)).1 = some e1)
    (hconn2 : (ConnectDatabase D2 (reconnectState D2 st2 h2)).1 = some e2) :
    ∃ r c1 s1 s2, DBMiddleware D1 next1 st1 c = .ret (r, s1, c1) ∧
      DBMiddleware D2 next2 st2 c = .ret (r, s2, c1) ∧
      c1.resp = { status := 500, body := "Database connection error" } ∧
      s1.trace.getLast? = some (.log ("Failed to reconnect to the database: " ++ e1)) ∧
      s2.trace.getLast? = some (.log ("Failed to reconnect to the database: " ++ e2)) := by
  refine ⟨_, _, _, _, DBMiddleware_reconnect_fail D1 next1 st1 c h1 e1 hdb1 hprobe1 hconn1,
    DBMiddleware_reconnect_fail D2 next2 st2 c h2 e2 hdb2 hprobe2 hconn2, rfl, ?_, ?_⟩
  · simp [State.log, State.emit]
  · simp [State.log, State.emit]

/-- C10 (witness): one run fails in the ping, the other in the open step. -/
theorem C10_failure_response_uniform_witness :
    (ConnectDatabase unreachableDriver (reconnectState unreachableDriver staleState 7)).1 =
      some "failed to ping database: dial tcp: connection refused" ∧
    (ConnectDatabase noOpenDriver
        (reconnectState noOpenDriver { world := 0, db := some 3, live := [], trace := [] } 3)).1 =
      some "failed to connect to database: invalid DSN" ∧
    ∃ r c1 s1 s2, DBMiddleware unreachableDriver appNext staleState getRootCtx =
        .ret (r, s1, c1) ∧
      DBMiddleware noOpenDriver helloHandler
          { world := 0, db := some 3, live := [], trace := [] } getRootCtx = .ret (r, s2, c1) ∧
      c1.resp = { status := 500, body := "Database connection error" } ∧
      s1.trace.getLast? = some (.log ("Failed to reconnect to the database: " ++
        "failed to ping database: dial tcp: connection refused")) ∧
      s2.trace.getLast? = some (.log ("Failed to reconnect to the database: " ++
        "failed to connect to database: invalid DSN")) :=
  ⟨by decide, by decide,
    C10_failure_response_uniform unreachableDriver noOpenDriver appNext helloHandler staleState
      { world := 0, db := some 3, live := [], trace := [] } getRootCtx 7 3 _ _ rfl rfl
      (by decide) (by decide) (by decide) (by decide)⟩

/-! ## GracefulShutdown and the shutdown path -/

theorem GracefulShutdown_no_session (D : Driver W) (st : State W) (h : Handle) (err : String)
    (hdb : st.db = some h) (hs : D.getDB st.world h = .error err) :
    GracefulShutdown D st = .ret { st with trace := st.trace ++ [.dbDB h] } := by
  unfold GracefulShutdown
  simp [hdb, State.emit, hs]

theorem GracefulShutdown_close (D : Driver W) (st : State W) (h : Handle) (s : Session)
    (hdb : st.db = some h) (hs : D.getDB st.world h = .ok s) :
    GracefulShutdown D st = .ret
      { world := (D.close st.world s).2, db := st.db, live := st.live.erase h,
        trace := st.trace ++ [.dbDB h, .close s, .log (closeLine (D.close st.world s).1)] } := by
  unfold GracefulShutdown
  rcases hc : D.close st.world s with ⟨e, w⟩
  cases e <;> simp [hdb, State.emit, State.log, hs, hc, closeLine]

/-- When the requests `reqs` leave the process in the Running state `st`, the
run of `main` ends the way its shutdown path from `st` ends. -/
theorem main_of_running (D : Driver W) (w : W) (reqs : List Request) (st : State W)
    (hrun : running D w reqs = some st) :
    main D w reqs =
      match shutdownPath D st with
      | .panic msg => .crashed msg
      | .ret st2 => .done st2 := by
  unfold running at hrun
  unfold main
  cases hst : startup D w with
  | inl s0 => rw [hst] at hrun; cases hrun
  | inr s0 =>
    rw [hst] at hrun
    simp only at hrun ⊢
    cases hsv : serve D s0 reqs with
    | panic msg => rw [hsv] at hrun; cases hrun
    | ret s1 =>
      rw [hsv] at hrun
      simp only [Option.some.injEq] at hrun
      subst hrun
      rfl

/-- C7: in a Running state whose shared handle has a session `s`, the shutdown
path run on the termination signal returns for every outcome of the close of
`s`, and its effects are, in this order: the shutdown log line, `db.DB()`,
one `Close` of `s`, the log line for the close outcome, `app.Shutdown()`.
The close happens exactly once and before the listener shutdown; a close error
changes nothing but the logged line. When the state is that of a run of
`main`, the run ends normally in that state. -/
theorem C7_close_then_listener_shutdown (D : Driver W) (st : State W) (h : Handle)
    (s : Session) (hdb : st.db = some h) (hs : D.getDB st.world h = .ok s) :
    ∃ st1, shutdownPath D st = .ret st1 ∧
      st1.trace = st.trace ++ [.log "Shutting down successfully...", .dbDB h, .close s,
        .log (closeLine (D.close st.world s).1), .appShutdown] ∧
      (st1.trace.drop st.trace.length).countP isClose = 1 ∧
      (∀ w reqs, running D w reqs = some st → main D w reqs = .done st1) := by
  have hg := GracefulShutdown_close D (st.log "Shutting down successfully...") h s hdb hs
  have hsp : shutdownPath D st = .ret
      (State.mk (D.close st.world s).2 st.db (st.live.erase h)
        (st.trace ++ [.log "Shutting down successfully...", .dbDB h, .close s,
          .log (closeLine (D.close st.world s).1), .appShutdown])) := by
    unfold shutdownPath
    rw [hg]
    simp [State.log, State.emit]
  refine ⟨_, hsp, rfl, ?_, ?_⟩
  · simp [isClose]
  · intro w reqs hrun
    rw [main_of_running D w reqs st hrun, hsp]

/-- C7 (witness): a run of `main` with one request, on a database whose
session close reports an error. -/
theorem C7_close_then_listener_shutdown_witness :
    ∃ st, running closeErrDriver 0 [getRoot] = some st ∧ st.db = some 1 ∧
      closeErrDriver.getDB st.world 1 = .ok 1 ∧
      (closeErrDriver.close st.world 1).1 = some "close failed" ∧
      ∃ st1, shutdownPath closeErrDriver st = .ret st1 ∧
        st1.trace = st.trace ++ [.log "Shutting down successfully...", .dbDB 1, .close 1,
          .log (closeLine (closeErrDriver.close st.world 1).1), .appShutdown] ∧
        (st1.trace.drop st.trace.length).countP isClose = 1 ∧
        (∀ w reqs, running closeErrDriver w reqs = some st →
          main closeErrDriver w reqs = .done st1) :=
  ⟨_, rfl, rfl, rfl, rfl, C7_close_then_listener_shutdown closeErrDriver _ 1 1 rfl rfl⟩

/-! ## Open handles along a run of main -/

theorem connectCalls_append (a b : List Event) :
    connectCalls (a ++ b) = connectCalls a + connectCalls b := by
  simp [connectCalls]

theorem Grows.refl (st : State W) : Grows st st 0 :=
  ⟨[], [], by simp, by simp [connectCalls], by simp [connectCalls], by simp, by simp,
    by simp⟩

theorem Grows.trans {a b c : State W} {n m : Nat} (h1 : Grows a b n)
    (h2 : Grows b c m) : Grows a c (n + m) := by
  obtain ⟨e1, a1, ht1, hc1, hg1, hx1, hl1, hn1⟩ := h1
  obtain ⟨e2, a2, ht2, hc2, hg2, hx2, hl2, hn2⟩ := h2
  refine ⟨e1 ++ e2, a1 ++ a2, ?_, ?_, ?_, ?_, ?_, ?_⟩
  · rw [ht2, ht1, List.append_assoc]
  · rw [connectCalls_append]; omega
  · rw [List.countP_append, connectCalls_append, hg1, hg2]
  · rw [List.countP_append, hx1, hx2]
  · rw [hl2, hl1, List.append_assoc]
  · rw [connectCalls_append, List.length_append]; omega

theorem Grows.mono {a b : State W} {n m : Nat} (h : Grows a b n) (hnm : n ≤ m) :
    Grows a b m := by
  obtain ⟨e, add, ht, hc, hg, hx, hl, hn⟩ := h
  exact ⟨e, add, ht, by omega, hg, hx, hl, hn⟩

/-- Appending an event that is neither a `ConnectDatabase` entry, nor a
`gorm.Open` call, nor a close. -/
theorem Grows.emit (st : State W) (e : Event) (h1 : e ≠ .enterConnectDatabase)
    (h2 : isGormOpen e = false) (h3 : isClose e = false) : Grows st (st.emit e) 0 := by
  refine ⟨[e], [], rfl, ?_, ?_, ?_, ?_, ?_⟩
  · simp [connectCalls, List.count_cons, h1]
  · simp [connectCalls, List.count_cons, h1, List.countP_cons, h2]
  · simp [List.countP_cons, h3]
  · simp [State.emit]
  · simp

theorem ConnectDatabase_grows (D : Driver W) (st : State W) :
    Grows st (ConnectDatabase D st).2 1 := by
  rcases ho : D.gormOpen st.world (dsn (D.getenv st.world)) with ⟨r, w⟩
  cases r with
  | fail d err =>
    rw [ConnectDatabase_open_fail D st d err w ho]
    exact ⟨_, [], rfl, by simp [connectCalls], by simp [connectCalls, isGormOpen],
      by simp [isClose], by simp, by simp⟩
  | ok h =>
    cases hs : D.getDB w h with
    | error err =>
      rw [ConnectDatabase_session_fail D st h err w ho hs]
      exact ⟨_, [h], rfl, by simp [connectCalls], by simp [connectCalls, isGormOpen],
        by simp [isClose], rfl, by simp [connectCalls]⟩
    | ok s =>
      rcases hp : D.ping w s with ⟨e, w2⟩
      cases e with
      | some err =>
        rw [ConnectDatabase_ping_fail D st h s err w w2 ho hs hp]
        exact ⟨_, [h], rfl, by simp [connectCalls], by simp [connectCalls, isGormOpen],
          by simp [isClose], rfl, by simp [connectCalls]⟩
      | none =>
        rw [ConnectDatabase_ok D st h s w w2 ho hs hp]
        exact ⟨_, [h], rfl, by simp [connectCalls], by simp [connectCalls, isGormOpen],
          by simp [isClose], rfl, by simp [connectCalls]⟩

theorem probe_grows (D : Driver W) (st : State W) (h : Handle) :
    Grows st (probe D st h).2 0 := by
  have hl := (probe_frame D st h).2.1
  rcases (probe_frame D st h).2.2 with ht | ⟨s, _, ht⟩
  · exact ⟨_, [], ht, by simp [connectCalls], by simp [connectCalls, isGormOpen],
      by simp [isClose], by simp [hl], by simp⟩
  · exact ⟨_, [], ht, by simp [connectCalls], by simp [connectCalls, isGormOpen],
      by simp [isClose], by simp [hl], by simp⟩

theorem appNext_state (st : State W) (c : Ctx) :
    ∃ e c1, appNext st c = .ret (e, st, c1) := by
  unfold appNext
  split
  · exact ⟨_, _, rfl⟩
  · split
    · exact ⟨_, _, rfl⟩
    · exact ⟨_, _, rfl⟩

/-- One request makes at most one `ConnectDatabase` call and closes nothing. -/
theorem handleRequest_grows (D : Driver W) (st st1 : State W) (r : Request)
    (e : Option String) (c : Ctx) (hr : handleRequest D st r = .ret (e, st1, c)) :
    Grows st st1 1 := by
  unfold handleRequest at hr
  cases hdb : st.db with
  | none => simp [DBMiddleware, hdb] at hr
  | some h =>
    cases hp : (probe D st h).1 with
    | false =>
      rw [DBMiddleware_healthy D appNext st _ h hdb hp] at hr
      obtain ⟨e2, c2, hn⟩ := appNext_state ((probe D st h).2.emit .next)
        { req := r, resp := { status := StatusOK, body := "" } }
      rw [hn] at hr
      cases hr
      exact ((probe_grows D st h).trans
        (Grows.emit _ .next (by decide) rfl rfl)).mono (by omega)
    | true =>
      have hlog : Grows (probe D st h).2 (reconnectState D st h) 0 :=
        Grows.emit _ (.log "Reconnecting to the database...") (by simp) rfl rfl
      have hcd := ConnectDatabase_grows D (reconnectState D st h)
      cases hc : (ConnectDatabase D (reconnectState D st h)).1 with
      | none =>
        rw [DBMiddleware_reconnect_ok D appNext st _ h hdb hp hc] at hr
        obtain ⟨e2, c2, hn⟩ := appNext_state
          ((ConnectDatabase D (reconnectState D st h)).2.emit .next)
          { req := r, resp := { status := StatusOK, body := "" } }
        rw [hn] at hr
        cases hr
        exact ((((probe_grows D st h).trans hlog).trans hcd).trans
          (Grows.emit _ .next (by decide) rfl rfl)).mono (by omega)
      | some err =>
        rw [DBMiddleware_reconnect_fail D appNext st _ h err hdb hp hc] at hr
        cases hr
        exact ((((probe_grows D st h).trans hlog).trans hcd).trans
          (Grows.emit _ (.log ("Failed to reconnect to the database: " ++ err))
            (by simp) rfl rfl)).mono (by omega)

theorem serve_grows (D : Driver W) (reqs : List Request) :
    ∀ st st1 : State W, serve D st reqs = .ret st1 → Grows st st1 reqs.length := by
  induction reqs with
  | nil =>
    intro st st1 h
    simp only [serve, Outcome.ret.injEq] at h
    subst h
    exact Grows.refl st
  | cons r rs ih =>
    intro st st1 h
    unfold serve at h
    cases hr : handleRequest D st r with
    | panic msg => rw [hr] at h; cases h
    | ret x =>
      obtain ⟨e, st2, c⟩ := x
      rw [hr] at h
      simp only at h
      exact ((handleRequest_grows D st st2 r e c hr).trans (ih st2 st1 h)).mono
        (by simp; omega)

/-- Serving `a ++ b` is serving `a`, then `b` from the state reached. -/
theorem serve_append (D : Driver W) (a b : List Request) :
    ∀ st : State W, serve D st (a ++ b) =
      match serve D st a with
      | .panic msg => .panic msg
      | .ret st1 => serve D st1 b := by
  induction a with
  | nil => intro st; simp [serve]
  | cons r rs ih =>
    intro st
    simp only [List.cons_append, serve]
    cases hr : handleRequest D st r with
    | panic msg => rfl
    | ret x =>
      obtain ⟨e, st2, c⟩ := x
      simp only
      exact ih st2

theorem startup_grows (D : Driver W) (w : W) (st : State W)
    (h : startup D w = .inr st) : Grows (initState w) st 1 := by
  unfold startup at h
  have hcd := ConnectDatabase_grows D (initState w)
  rcases hc : ConnectDatabase D (initState w) with ⟨e, s0⟩
  rw [hc] at h hcd
  cases e with
  | some err => cases h
  | none =>
    simp only [Sum.inr.injEq] at h
    subst h
    exact (hcd.trans (Grows.emit _ (.listen ":3000") (by simp) rfl rfl)).mono (by omega)

/-- A Running state is the state reached by serving the requests from the
state startup leaves. -/
theorem running_eq (D : Driver W) (w : W) (reqs : List Request) (st : State W)
    (h : running D w reqs = some st) :
    ∃ s0, startup D w = .inr s0 ∧ serve D s0 reqs = .ret st := by
  unfold running at h
  cases hst : startup D w with
  | inl s0 => rw [hst] at h; cases h
  | inr s0 =>
    rw [hst] at h
    simp only at h
    cases hsv : serve D s0 reqs with
    | panic msg => rw [hsv] at h; cases h
    | ret s1 =>
      rw [hsv] at h
      have hst1 := Option.some.inj h
      subst hst1
      exact ⟨s0, rfl, hsv⟩

theorem running_grows (D : Driver W) (w : W) (reqs : List Request) (st : State W)
    (h : running D w reqs = some st) : Grows (initState w) st (1 + reqs.length) := by
  obtain ⟨s0, hst, hsv⟩ := running_eq D w reqs st h
  exact (startup_grows D w s0 hst).trans (serve_grows D reqs s0 st hsv)

/-- The Running state after further requests is reached by serving them from
the current Running state. -/
theorem running_append (D : Driver W) (w : W) (reqs more : List Request) (st st2 : State W)
    (h : running D w reqs = some st) (h2 : running D w (reqs ++ more) = some st2) :
    serve D st more = .ret st2 := by
  obtain ⟨s0, hst, hsv⟩ := running_eq D w reqs st h
  obtain ⟨s1, hst1, hsv1⟩ := running_eq D w (reqs ++ more) st2 h2
  rw [hst] at hst1
  cases hst1
  rw [serve_append, hsv] at hsv1
  exact hsv1

/-- The shutdown path when the shared handle has a session. -/
theorem shutdownPath_session (D : Driver W) (st : State W) (h : Handle) (s : Session)
    (hdb : st.db = some h) (hs : D.getDB st.world h = .ok s) :
    shutdownPath D st = .ret
      (State.mk (D.close st.world s).2 st.db (st.live.erase h)
        (st.trace ++ [.log "Shutting down successfully...", .dbDB h, .close s,
          .log (closeLine (D.close st.world s).1), .appShutdown])) := by
  have hg := GracefulShutdown_close D (st.log "Shutting down successfully...") h s hdb hs
  unfold shutdownPath
  rw [hg]
  simp [State.log, State.emit]

/-- The shutdown path when `db.DB()` returns an error. -/
theorem shutdownPath_no_session (D : Driver W) (st : State W) (h : Handle) (err : String)
    (hdb : st.db = some h) (hs : D.getDB st.world h = .error err) :
    shutdownPath D st = .ret
      (State.mk st.world st.db st.live
        (st.trace ++ [.log "Shutting down successfully...", .dbDB h, .appShutdown])) := by
  have hg := GracefulShutdown_no_session D (st.log "Shutting down successfully...") h err
    hdb hs
  unfold shutdownPath
  rw [hg]
  simp [State.log, State.emit]

/-- A run of `main` that ends normally went through a Running state and the
shutdown path from it. -/
theorem main_done (D : Driver W) (w : W) (reqs : List Request) (st3 : State W)
    (h : main D w reqs = .done st3) :
    ∃ st, running D w reqs = some st ∧ shutdownPath D st = .ret st3 := by
  cases hrun : running D w reqs with
  | none =>
    unfold running at hrun
    unfold main at h
    cases hst : startup D w with
    | inl s0 => rw [hst] at h; cases h
    | inr s0 =>
      rw [hst] at h hrun
      simp only at h hrun
      cases hsv : serve D s0 reqs with
      | panic msg => rw [hsv] at h; cases h
      | ret s1 => rw [hsv] at hrun; cases hrun
  | some s1 =>
    rw [main_of_running D w reqs s1 hrun] at h
    cases hsp : shutdownPath D s1 with
    | panic msg => rw [hsp] at h; cases h
    | ret s2 =>
      rw [hsp] at h
      injection h with h
      subst h
      exact ⟨s1, rfl, hsp⟩

/-- A successful `ConnectDatabase` call stores the handle it opened in `db`
and appends it to the open handles; the handles open before stay open. -/
theorem ConnectDatabase_success_state (D : Driver W) (st : State W)
    (hok : (ConnectDatabase D st).1 = none) :
    ∃ h, (ConnectDatabase D st).2.db = some h ∧
      (ConnectDatabase D st).2.live = st.live ++ [h] := by
  rcases ConnectDatabase_cases D st with ⟨_, _, _, _, h1⟩ | ⟨_, _, _, _, _, h1⟩ |
    ⟨_, _, _, _, _, _, _, _, h1⟩ | ⟨h, s, w, w2, ho, hs, hp, _⟩
  · rw [hok] at h1; cases h1
  · rw [hok] at h1; cases h1
  · rw [hok] at h1; cases h1
  · rw [ConnectDatabase_ok D st h s w w2 ho hs hp]
    exact ⟨h, rfl, rfl⟩

/-- A request whose probe fails and whose reconnect succeeds: the new handle
is in `db`, and it is open next to all the handles that were open before. -/
theorem handleRequest_reconnect_keeps_open (D : Driver W) (st : State W) (r : Request)
    (h : Handle) (hdb : st.db = some h) (hprobe : (probe D st h).1 = true)
    (hconn : (ConnectDatabase D (reconnectState D st h)).1 = none) :
    ∃ e st2 c h2, handleRequest D st r = .ret (e, st2, c) ∧ st2.db = some h2 ∧
      st2.live = st.live ++ [h2] := by
  obtain ⟨h2, hd2, hl2⟩ := ConnectDatabase_success_state D (reconnectState D st h) hconn
  obtain ⟨e2, c2, hn⟩ := appNext_state
    ((ConnectDatabase D (reconnectState D st h)).2.emit .next)
    { req := r, resp := { status := StatusOK, body := "" } }
  refine ⟨e2, (ConnectDatabase D (reconnectState D st h)).2.emit .next, c2, h2, ?_, ?_, ?_⟩
  · unfold handleRequest
    rw [DBMiddleware_reconnect_ok D appNext st _ h hdb hprobe hconn, hn]
  · exact hd2
  · show (ConnectDatabase D (reconnectState D st h)).2.live = _
    rw [hl2]
    show (probe D st h).2.live ++ [h2] = _
    rw [(probe_frame D st h).2.1]

theorem GracefulShutdown_nil (D : Driver W) (st : State W) (hdb : st.db = none) :
    GracefulShutdown D st = .panic nilDeref := by
  unfold GracefulShutdown
  rw [hdb]

/-- C8 (as amended): in every state `st` reachable from startup through any
sequence of requests,
* handles are created only inside `ConnectDatabase`: the trace holds exactly
  one `gorm.Open` per `ConnectDatabase` call;
* `ConnectDatabase` ran once at startup and at most once per request;
* nothing was closed, and the open handles number at most the
  `ConnectDatabase` calls;
* a request whose probe fails and whose reconnect succeeds puts the new
  handle in `db` and leaves every handle that was open before open next to it;
* further requests only add to the open handles;
* the final shutdown closes one session at most, that of the handle `db`
  holds then, and removes that handle alone from the open ones: when `db.DB()`
  returns an error it closes nothing. The same counts hold after it. -/
theorem C8_reconnect_keeps_old_handle_open (D : Driver W) (w : W) (reqs : List Request)
    (st : State W) (hrun : running D w reqs = some st) :
    st.trace.countP isGormOpen = connectCalls st.trace ∧
    connectCalls st.trace ≤ 1 + reqs.length ∧
    st.trace.countP isClose = 0 ∧
    st.live.length ≤ connectCalls st.trace ∧
    (∀ r h, st.db = some h → (probe D st h).1 = true →
      (ConnectDatabase D (reconnectState D st h)).1 = none →
      ∃ e st2 c h2, handleRequest D st r = .ret (e, st2, c) ∧ st2.db = some h2 ∧
        st2.live = st.live ++ [h2]) ∧
    (∀ more st2, running D w (reqs ++ more) = some st2 →
      ∃ add, st2.live = st.live ++ add) ∧
    (∀ st3, main D w reqs = .done st3 →
      st3.trace.countP isGormOpen = connectCalls st3.trace ∧
      connectCalls st3.trace = connectCalls st.trace ∧
      st3.live.length ≤ connectCalls st3.trace ∧
      ∃ h, st.db = some h ∧
        ((∃ s, D.getDB st.world h = .ok s ∧ st3.live = st.live.erase h ∧
            st3.trace = st.trace ++ [.log "Shutting down successfully...", .dbDB h,
              .close s, .log (closeLine (D.close st.world s).1), .appShutdown]) ∨
          (∃ err, D.getDB st.world h = .error err ∧ st3.live = st.live ∧
            st3.trace = st.trace ++
              [.log "Shutting down successfully...", .dbDB h, .appShutdown]))) := by
  obtain ⟨evs, add, ht, hc, hg, hx, hl, hn⟩ := running_grows D w reqs st hrun
  simp only [initState, List.nil_append] at ht hl
  have hlen : st.live.length ≤ connectCalls st.trace := by rw [hl, ht]; exact hn
  have hgo : st.trace.countP isGormOpen = connectCalls st.trace := by rw [ht]; exact hg
  refine ⟨hgo, by rw [ht]; exact hc, by rw [ht]; exact hx, hlen, ?_, ?_, ?_⟩
  · intro r h hdb hprobe hconn
    exact handleRequest_reconnect_keeps_open D st r h hdb hprobe hconn
  · intro more st2 h2
    obtain ⟨_, add2, _, _, _, _, hl2, _⟩ :=
      serve_grows D more st st2 (running_append D w reqs more st st2 hrun h2)
    exact ⟨add2, hl2⟩
  · intro st3 hm
    obtain ⟨st0, hrun0, hsp⟩ := main_done D w reqs st3 hm
    rw [hrun] at hrun0
    have hst0 := Option.some.inj hrun0
    subst hst0
    cases hdb : st.db with
    | none =>
      unfold shutdownPath at hsp
      rw [GracefulShutdown_nil D _ (by simpa [State.log, State.emit] using hdb)] at hsp
      cases hsp
    | some h =>
      have hle : (st.live.erase h).length ≤ st.live.length := by
        rw [List.length_erase]; split <;> omega
      cases hs : D.getDB st.world h with
      | error err =>
        rw [shutdownPath_no_session D st h err hdb hs] at hsp
        cases hsp
        refine ⟨?_, ?_, ?_, h, rfl, Or.inr ⟨err, hs, rfl, rfl⟩⟩
        · simp [connectCalls_append, hgo, connectCalls, isGormOpen]
        · simp [connectCalls_append, connectCalls]
        · simpa [connectCalls_append, connectCalls] using hlen
      | ok s =>
        rw [shutdownPath_session D st h s hdb hs] at hsp
        cases hsp
        refine ⟨?_, ?_, ?_, h, rfl, Or.inl ⟨s, hs, rfl, rfl⟩⟩
        · simp [connectCalls_append, hgo, connectCalls, isGormOpen]
        · simp [connectCalls_append, connectCalls]
        · have : (st.live.erase h).length ≤ connectCalls st.trace := by omega
          simpa [connectCalls_append, connectCalls] using this

/-- C8 (witness): the Running state right after startup; the database then
drops its connections, and the request that follows reconnects. Handle 1 stays
open next to the new handle 4. -/
theorem C8_reconnect_keeps_old_handle_open_witness :
    ∃ st, running restartDriver 0 [] = some st ∧ st.db = some 1 ∧ st.live = [1] ∧
      (probe restartDriver st 1).1 = true ∧
      (ConnectDatabase restartDriver (reconnectState restartDriver st 1)).1 = none ∧
      st.trace.countP isClose = 0 ∧
      ∃ e st2 c h2, handleRequest restartDriver st getRoot = .ret (e, st2, c) ∧
        st2.db = some h2 ∧ st2.live = st.live ++ [h2] :=
  ⟨_, rfl, rfl, rfl, by decide, by decide,
    (C8_reconnect_keeps_old_handle_open restartDriver 0 [] _ rfl).2.2.1,
    (C8_reconnect_keeps_old_handle_open restartDriver 0 [] _ rfl).2.2.2.2.1 getRoot 1 rfl
      (by decide) (by decide)⟩

/-- C8 (counterexample): startup opens handle 1; the database drops its
connections; the next `GET /` finds the ping failing and reconnects, which
opens handle 4 and stores it in `db`. No close was made, so handles 1 and 4
are both open in this Running state. -/
theorem C8_two_open_handles :
    ∃ st, running restartDriver 0 [getRoot] = some st ∧ st.db = some 4 ∧
      st.live = [1, 4] ∧ st.trace.countP isClose = 0 ∧
      st.trace.countP isGormOpen = 2 ∧ ¬ st.live.length ≤ 1 :=
  ⟨_, rfl, rfl, rfl, by decide, by decide, by decide⟩

end Calendar
